import Mathlib

/-!
Verification of the crowdcompute cc-go-sdk client library
(`crowdcompute/client.go` and `crowdcompute/file_upload_client.go`).

The embedding is a shallow one:

* JSON documents are modelled by the inductive `Json`; a response body on the
  wire is a `Wire`, which is either well-formed JSON or malformed bytes.
* Go's `encoding/json` behaviour on the two envelope structs (`rpcRequest`,
  `rpcResponse`) is modelled field by field, including its quirks: an absent
  field leaves the zero value, a JSON `null` is a no-op that also leaves the
  zero value, a `json.RawMessage` field captures the raw subtree (`nil` when
  the field is absent), and `json.Unmarshal` of a `nil` byte slice fails.
* The HTTP layer is a function parameter `net : Net` mapping the outgoing
  request to a transport failure or a response body, so every theorem
  quantifies over server behaviour.  The request a call sends is returned as
  part of the result (`CallOut.sent`) so that header and envelope contents are
  observable.
* The Go methods mutate their receiver (`rpc.client = oauth2.NewClient ...`),
  so every wrapper is modelled in state-passing style: it returns the updated
  `CCClient` next to its result.
* `log.Fatalf` (the `fatalIfErr` helper) terminates the process; a wrapper
  outcome is therefore a `WrapperResult`: either `.fatal message` (the process
  aborted) or `.ok value err` (the wrapper returned the pair `(value, err)`).
-/

/-- A JSON value.  Go's `encoding/json` parses numbers as float64; the
envelopes only ever carry integral ids and error codes, so numbers are
modelled as `Int`. -/
inductive Json where
  | null
  | bool (b : Bool)
  | num (n : Int)
  | str (s : String)
  | arr (elems : List Json)
  | obj (fields : List (String × Json))

/-- Association-list lookup used to model reading a key of a JSON object. -/
def Json.lookupField (fields : List (String × Json)) (key : String) : Option Json :=
  match fields with
  | [] => none
  | (k, v) :: rest => if k = key then some v else Json.lookupField rest key

/-- A response body as read off the wire: well-formed JSON or malformed bytes. -/
inductive Wire where
  | malformed (raw : String)
  | json (j : Json)

/-- `rpcError` from client.go: the JSON-RPC error object `{code, message}`. -/
structure RpcError where
  code : Int
  message : String
deriving DecidableEq

/-- `rpcResponse` from client.go.  `result` models the `json.RawMessage`
field: `none` when the `"result"` key is absent (a `nil` slice in Go), and
`some j` when it is present with raw subtree `j` (including `some .null` for
an explicit JSON `null`). -/
structure RpcResponse where
  id : Int
  jsonrpc : String
  result : Option Json
  error : Option RpcError

/-- `rpcRequest` from client.go: the outgoing JSON-RPC envelope. -/
structure RpcRequest where
  id : Int
  jsonrpc : String
  method : String
  params : List Json

/-- `json.Marshal` of an `rpcRequest`: the four tagged fields in struct order. -/
def encodeRequest (r : RpcRequest) : Json :=
  .obj [("id", .num r.id), ("jsonrpc", .str r.jsonrpc),
        ("method", .str r.method), ("params", .arr r.params)]

/-- `json.Unmarshal` of an `int` struct field: absent or `null` leaves the
zero value, a number decodes, anything else is a type error. -/
def readIntField (j : Option Json) : Option Int :=
  match j with
  | none => some 0
  | some .null => some 0
  | some (.num n) => some n
  | some _ => none

/-- `json.Unmarshal` of a `string` struct field: absent or `null` leaves the
zero value, a string decodes, anything else is a type error. -/
def readStringField (j : Option Json) : Option String :=
  match j with
  | none => some ""
  | some .null => some ""
  | some (.str s) => some s
  | some _ => none

/-- `json.Unmarshal` of a `[]interface` struct field: absent or `null` leaves
the nil slice, an array decodes, anything else is a type error. -/
def readParamsField (j : Option Json) : Option (List Json) :=
  match j with
  | none => some []
  | some .null => some []
  | some (.arr xs) => some xs
  | some _ => none

/-- `json.Unmarshal` of the `*rpcError` field: absent or `null` leaves the
pointer nil; an object decodes its `code` and `message` keys with the usual
zero-value defaults; anything else is a type error. -/
def readErrorField (j : Option Json) : Option (Option RpcError) :=
  match j with
  | none => some none
  | some .null => some none
  | some (.obj fs) =>
      match readIntField (Json.lookupField fs "code"),
            readStringField (Json.lookupField fs "message") with
      | some c, some m => some (some ⟨c, m⟩)
      | _, _ => none
  | some _ => none

/-- `json.Unmarshal(data, new(rpcResponse))`: malformed bytes fail; a JSON
`null` is a no-op leaving the zero struct; an object decodes field by field;
any other document is a type error. -/
def decodeResponse (w : Wire) : Option RpcResponse :=
  match w with
  | .malformed _ => none
  | .json .null => some ⟨0, "", none, none⟩
  | .json (.obj fs) =>
      match readIntField (Json.lookupField fs "id"),
            readStringField (Json.lookupField fs "jsonrpc"),
            readErrorField (Json.lookupField fs "error") with
      | some i, some v, some e => some ⟨i, v, Json.lookupField fs "result", e⟩
      | _, _, _ => none
  | .json _ => none

/-- `json.Unmarshal(data, new(rpcRequest))`, used to state the round-trip
property for the request envelope. -/
def decodeRequest (j : Json) : Option RpcRequest :=
  match j with
  | .null => some ⟨0, "", "", []⟩
  | .obj fs =>
      match readIntField (Json.lookupField fs "id"),
            readStringField (Json.lookupField fs "jsonrpc"),
            readStringField (Json.lookupField fs "method"),
            readParamsField (Json.lookupField fs "params") with
      | some i, some v, some m, some ps => some ⟨i, v, m, ps⟩
      | _, _, _, _ => none
  | _ => none

/-! ### The HTTP client state and the generic `call` -/

/-- The `*http.Client` held by the SDK clients, abstracted to what decides the
outgoing headers: `http.DefaultClient`, or the `oauth2.NewClient` wrapper that
injects a static bearer token. -/
inductive Transport where
  | default
  | bearer (token : String)
deriving DecidableEq

/-- The `Authorization` header the transport adds to every request it sends. -/
def Transport.authHeaders : Transport → List (String × String)
  | .default => []
  | .bearer t => [("Authorization", "Bearer " ++ t)]

/-- An outgoing HTTP POST as the server sees it. -/
structure HttpRequest where
  url : String
  contentType : String
  headers : List (String × String)
  body : Json

/-- What `client.Post` plus `ioutil.ReadAll` produce: a transport or
body-read failure, or the full response body. -/
inductive PostResult where
  | fail
  | ok (body : Wire)

/-- The network: how the server answers each outgoing request. -/
def Net := HttpRequest → PostResult

/-- `CCClient` from client.go. -/
structure CCClient where
  url : String
  client : Transport
  versionJSONRPC : String
  Debug : Bool

/-- `NewCCClient`: a fresh client over the default transport with protocol
version `"2.0"`. -/
def NewCCClient (url : String) : CCClient :=
  { url := url, client := .default, versionJSONRPC := "2.0", Debug := false }

/-- The errors `call` can return.  A marshal failure of the request cannot
occur in the model because every parameter is already a `Json` value. -/
inductive CallError where
  | transport
  | deserialization
  | remote (e : RpcError)
deriving DecidableEq

/-- The observable outcome of one `call`: the request that was POSTed, and the
`(json.RawMessage, error)` pair returned to the wrapper. -/
structure CallOut where
  sent : HttpRequest
  result : Option Json
  err : Option CallError

/-- The request envelope `call` builds: fixed id 1, the client's protocol
version, the method name, the positional parameters. -/
def CCClient.request (rpc : CCClient) (method : String) (params : List Json) : RpcRequest :=
  { id := 1, jsonrpc := rpc.versionJSONRPC, method := method, params := params }

/-- The HTTP POST `call` issues: the client's url, content type
`application/json`, the transport's headers, the marshalled envelope. -/
def CCClient.httpRequest (rpc : CCClient) (method : String) (params : List Json) : HttpRequest :=
  { url := rpc.url, contentType := "application/json",
    headers := rpc.client.authHeaders, body := encodeRequest (rpc.request method params) }

/-- `call` from client.go: marshal the envelope, POST it, read the body,
unmarshal the response envelope, and return either the raw result or the
first error met along the way. -/
def CCClient.call (net : Net) (rpc : CCClient) (method : String) (params : List Json) :
    CallOut :=
  let req := rpc.httpRequest method params
  match net req with
  | .fail => { sent := req, result := none, err := some .transport }
  | .ok w =>
      match decodeResponse w with
      | none => { sent := req, result := none, err := some .deserialization }
      | some resp =>
          match resp.error with
          | some e => { sent := req, result := none, err := some (.remote e) }
          | none => { sent := req, result := resp.result, err := none }

/-! ### Decoding the raw result inside the typed wrappers -/

/-- `json.Unmarshal(res, &s)` for a `string` target, where `res` is the
`json.RawMessage` returned by `call`: a `nil` slice fails with
"unexpected end of JSON input", a JSON string decodes, a JSON `null` is a
no-op leaving the zero value, anything else is a type error. -/
def unmarshalString (res : Option Json) : Except String String :=
  match res with
  | none => .error "unexpected end of JSON input"
  | some (.str s) => .ok s
  | some .null => .ok ""
  | some _ => .error "cannot unmarshal value into Go value of type string"

/-- Element-wise decoding of a JSON array into `[]string`; a `null` element
is a no-op leaving the zero value `""`. -/
def stringElems (xs : List Json) : Except String (List String) :=
  match xs with
  | [] => .ok []
  | .str s :: rest => (stringElems rest).map (fun tl => s :: tl)
  | .null :: rest => (stringElems rest).map (fun tl => "" :: tl)
  | _ :: _ => .error "cannot unmarshal value into Go value of type string"

/-- `json.Unmarshal(res, &xs)` for a `[]string` target. -/
def unmarshalStringList (res : Option Json) : Except String (List String) :=
  match res with
  | none => .error "unexpected end of JSON input"
  | some (.arr xs) => stringElems xs
  | some .null => .ok []
  | some _ => .error "cannot unmarshal value into Go value of type string slice"

/-- The outcome of a typed wrapper: `log.Fatalf` killed the process
(`fatal`, carrying the logged message), or the wrapper returned its
`(value, err)` pair to the caller. -/
inductive WrapperResult (α : Type) where
  | fatal (message : String)
  | ok (value : α) (err : Option CallError)
deriving DecidableEq

/-- Whether the wrapper took the `log.Fatalf` path. -/
def WrapperResult.isFatal {α : Type} : WrapperResult α → Bool
  | .fatal _ => true
  | .ok _ _ => false

/-- Whether an unmarshal attempt failed. -/
def Except.isFailure {ε α : Type} : Except ε α → Bool
  | .error _ => true
  | .ok _ => false

/-- `fatalIfErr(unErr, message)` from client.go followed by the wrapper's
`return value, err`: a decoding error aborts the process with the formatted
log line; otherwise the wrapper returns the decoded value and the error from
`call` unchanged. -/
def fatalIfErr {α : Type} (unErr : Except String α) (message : String)
    (err : Option CallError) : WrapperResult α :=
  match unErr with
  | .error e => .fatal (message ++ ". ERROR: " ++ e)
  | .ok v => .ok v err

/-- The `fmt.Sprintf` message for a `string`-typed result. -/
def stringTypeMsg : String := "The result is not of type \"string\" \n"

/-- The `fmt.Sprintf` message for a `[]string`-typed result. -/
def sliceTypeMsg : String := "The result is not of type \"[]string\" \n"

/-- `oauth2.NewClient(ctx, oauth2.StaticTokenSource(token))`: the transport
that injects `Authorization: Bearer token` on every request. -/
def oauthClient (token : String) : Transport := .bearer token

/-! ### The typed wrappers, in client.go order.

Go passes the receiver by pointer and several wrappers assign to
`rpc.client`, so each wrapper returns the updated `CCClient` first, then the
request it POSTed, then its outcome. -/

def CCClient.CreateAccount (net : Net) (rpc : CCClient) (passphrase : String) :
    CCClient × HttpRequest × WrapperResult String :=
  let out := rpc.call net "accounts_createAccount" [.str passphrase]
  (rpc, out.sent, fatalIfErr (unmarshalString out.result) stringTypeMsg out.err)

def CCClient.UnlockAccount (net : Net) (rpc : CCClient) (acc passphrase : String) :
    CCClient × HttpRequest × WrapperResult String :=
  let out := rpc.call net "accounts_unlockAccount" [.str acc, .str passphrase]
  (rpc, out.sent, fatalIfErr (unmarshalString out.result) stringTypeMsg out.err)

def CCClient.LockAccount (net : Net) (rpc : CCClient) (account token : String) :
    CCClient × HttpRequest × Option CallError :=
  let rpc := { rpc with client := oauthClient token }
  let out := rpc.call net "accounts_lockAccount" [.str account]
  (rpc, out.sent, out.err)

def CCClient.DeleteAccount (net : Net) (rpc : CCClient) (acc passphrase : String) :
    CCClient × HttpRequest × Option CallError :=
  let out := rpc.call net "accounts_deleteAccount" [.str acc, .str passphrase]
  (rpc, out.sent, out.err)

def CCClient.ListAccounts (net : Net) (rpc : CCClient) :
    CCClient × HttpRequest × WrapperResult (List String) :=
  let out := rpc.call net "accounts_listAccounts" []
  (rpc, out.sent, fatalIfErr (unmarshalStringList out.result) sliceTypeMsg out.err)

def CCClient.GetBootnodes (net : Net) (rpc : CCClient) :
    CCClient × HttpRequest × WrapperResult (List String) :=
  let out := rpc.call net "bootnodes_getBootnodes" []
  (rpc, out.sent, fatalIfErr (unmarshalStringList out.result) sliceTypeMsg out.err)

def CCClient.SetBootnodes (net : Net) (rpc : CCClient) (nodes : List String) :
    CCClient × HttpRequest × Option CallError :=
  let out := rpc.call net "bootnodes_setBootnodes" [.arr (nodes.map .str)]
  (rpc, out.sent, out.err)

def CCClient.RunSwarmService (net : Net) (rpc : CCClient) (service : String)
    (nodes : List String) : CCClient × HttpRequest × Option CallError :=
  let out := rpc.call net "service_run" [.str service, .arr (nodes.map .str)]
  (rpc, out.sent, out.err)

def CCClient.StopSwarmService (net : Net) (rpc : CCClient) (nodes : List String) :
    CCClient × HttpRequest × Option CallError :=
  let out := rpc.call net "service_stop" [.arr (nodes.map .str)]
  (rpc, out.sent, out.err)

def CCClient.DiscoverNodes (net : Net) (rpc : CCClient) (num : Int) :
    CCClient × HttpRequest × WrapperResult String :=
  let out := rpc.call net "discovery_discover" [.num num]
  (rpc, out.sent, fatalIfErr (unmarshalString out.result) stringTypeMsg out.err)

def CCClient.LoadImageToNode (net : Net) (rpc : CCClient) (nodeID imageHash token : String) :
    CCClient × HttpRequest × WrapperResult String :=
  let rpc := { rpc with client := oauthClient token }
  let out := rpc.call net "imagemanager_pushImage" [.str nodeID, .str imageHash]
  (rpc, out.sent, fatalIfErr (unmarshalString out.result) stringTypeMsg out.err)

def CCClient.ExecuteImage (net : Net) (rpc : CCClient) (nodeID dockImageID : String) :
    CCClient × HttpRequest × WrapperResult String :=
  let out := rpc.call net "imagemanager_runImage" [.str nodeID, .str dockImageID]
  (rpc, out.sent, fatalIfErr (unmarshalString out.result) stringTypeMsg out.err)

def CCClient.InspectContainer (net : Net) (rpc : CCClient) (nodeID containerID : String) :
    CCClient × HttpRequest × WrapperResult String :=
  let out := rpc.call net "imagemanager_inspectContainer" [.str nodeID, .str containerID]
  (rpc, out.sent, fatalIfErr (unmarshalString out.result) stringTypeMsg out.err)

def CCClient.ListNodeImages (net : Net) (rpc : CCClient) (nodeID token : String) :
    CCClient × HttpRequest × WrapperResult String :=
  let rpc := { rpc with client := oauthClient token }
  let out := rpc.call net "imagemanager_listImages" [.str nodeID]
  (rpc, out.sent, fatalIfErr (unmarshalString out.result) stringTypeMsg out.err)

def CCClient.ListNodeContainers (net : Net) (rpc : CCClient) (nodeID token : String) :
    CCClient × HttpRequest × WrapperResult String :=
  let rpc := { rpc with client := oauthClient token }
  let out := rpc.call net "imagemanager_listContainers" [.str nodeID]
  (rpc, out.sent, fatalIfErr (unmarshalString out.result) stringTypeMsg out.err)

def CCClient.LvlDBStats (net : Net) (rpc : CCClient) :
    CCClient × HttpRequest × WrapperResult String :=
  let out := rpc.call net "lvldb_getDBStats" []
  (rpc, out.sent, fatalIfErr (unmarshalString out.result) stringTypeMsg out.err)

def CCClient.LvlDBSelectImage (net : Net) (rpc : CCClient) (imageID : String) :
    CCClient × HttpRequest × WrapperResult String :=
  let out := rpc.call net "lvldb_selectImage" [.str imageID]
  (rpc, out.sent, fatalIfErr (unmarshalString out.result) stringTypeMsg out.err)

def CCClient.LvlDBSelectImageAccount (net : Net) (rpc : CCClient) (imageHash : String) :
    CCClient × HttpRequest × WrapperResult String :=
  let out := rpc.call net "lvldb_selectImageAccount" [.str imageHash]
  (rpc, out.sent, fatalIfErr (unmarshalString out.result) stringTypeMsg out.err)

def CCClient.LvlDBSelectType (net : Net) (rpc : CCClient) (typeName : String) :
    CCClient × HttpRequest × WrapperResult String :=
  let out := rpc.call net "lvldb_selectType" [.str typeName]
  (rpc, out.sent, fatalIfErr (unmarshalString out.result) stringTypeMsg out.err)

def CCClient.LvlDBSelectAll (net : Net) (rpc : CCClient) :
    CCClient × HttpRequest × WrapperResult String :=
  let out := rpc.call net "lvldb_selectAll" []
  (rpc, out.sent, fatalIfErr (unmarshalString out.result) stringTypeMsg out.err)

/-! ### The file upload client (`file_upload_client.go`) -/

/-- `UploadClient` from file_upload_client.go. -/
structure UploadClient where
  url : String
  client : Transport
  Debug : Bool

/-- `NewUploadClient`: a fresh upload client over the default transport. -/
def NewUploadClient (url : String) : UploadClient :=
  { url := url, client := .default, Debug := false }

/-- The local filesystem: what `os.Open` + `io.Copy` yield for each path —
`none` when the path does not name a readable file. -/
def FileSys := String → Option String

/-- A multipart form POST as the server sees it: one form field named
`fieldName` carrying `filename` and the file's bytes. -/
structure MultipartRequest where
  url : String
  contentType : String
  headers : List (String × String)
  fieldName : String
  filename : String
  content : String

/-- The network for the upload client: `none` is a transport or body-read
failure, `some body` the full response body text. -/
def UploadNet := MultipartRequest → Option String

/-- The errors `UploadFile` can return.  `multipart.Writer.CreateFormFile`
never fails when writing into a `bytes.Buffer`, so the only failure exits are
the file open/read and the POST/body-read. -/
inductive UploadError where
  | fileError (path : String)
  | transport
deriving DecidableEq

/-- `UploadFile` from file_upload_client.go, in state-passing style: it first
rebinds `c.client` to the bearer transport, then builds the multipart body
from the file, then POSTs it.  Returns the updated client, the list of POSTs
actually issued, and the `(string, error)` pair handed to the caller. -/
def UploadClient.UploadFile (net : UploadNet) (fs : FileSys) (c : UploadClient)
    (filename token : String) :
    UploadClient × List MultipartRequest × Except UploadError String :=
  let c := { c with client := oauthClient token }
  match fs filename with
  | none => (c, [], .error (.fileError filename))
  | some content =>
      let req : MultipartRequest :=
        { url := c.url, contentType := "multipart/form-data",
          headers := c.client.authHeaders,
          fieldName := "file", filename := filename, content := content }
      match net req with
      | none => (c, [req], .error .transport)
      | some body => (c, [req], .ok body)

/-- A server that answers every request with the same body. -/
def constNet (w : Wire) : Net := fun _ => .ok w

/-! ### Helper lemmas -/

/-- Whatever the server does, the request `call` POSTs is `httpRequest`. -/
theorem CCClient.call_sent (net : Net) (rpc : CCClient) (m : String) (ps : List Json) :
    (rpc.call net m ps).sent = rpc.httpRequest m ps := by
  simp only [CCClient.call]
  split
  · rfl
  · split
    · rfl
    · split <;> rfl

/-- `fatalIfErr` takes the `log.Fatalf` path exactly when decoding failed. -/
theorem fatalIfErr_isFatal {α : Type} (u : Except String α) (msg : String)
    (err : Option CallError) : (fatalIfErr u msg err).isFatal = u.isFailure := by
  cases u <;> rfl

/-- Against a server answering with a body that decodes to an error-free
envelope, `call` returns the raw result and no error. -/
theorem CCClient.call_const_ok (rpc : CCClient) (w : Wire) (resp : RpcResponse)
    (m : String) (ps : List Json) (hdec : decodeResponse w = some resp)
    (herr : resp.error = none) :
    rpc.call (constNet w) m ps = ⟨rpc.httpRequest m ps, resp.result, none⟩ := by
  unfold CCClient.call constNet
  simp [hdec, herr]

/-- Against a server answering with a body that does not decode, `call`
returns the deserialization error. -/
theorem CCClient.call_const_bad (rpc : CCClient) (w : Wire)
    (m : String) (ps : List Json) (hdec : decodeResponse w = none) :
    rpc.call (constNet w) m ps = ⟨rpc.httpRequest m ps, none, some .deserialization⟩ := by
  unfold CCClient.call constNet
  simp [hdec]

/-! ### The claims -/

/-- C5: the request envelope built by `call` on a client constructed from a
URL has id 1, protocol version `"2.0"`, the given method name, and the
caller's arguments as the ordered positional parameter list; the POSTed body
is exactly that envelope, marshalled. -/
theorem call_builds_fixed_envelope (url m : String) (ps : List Json) (net : Net) :
    (NewCCClient url).request m ps = ⟨1, "2.0", m, ps⟩ ∧
    ((NewCCClient url).call net m ps).sent = (NewCCClient url).httpRequest m ps ∧
    (NewCCClient url).httpRequest m ps =
      ⟨url, "application/json", [], encodeRequest ⟨1, "2.0", m, ps⟩⟩ :=
  ⟨rfl, CCClient.call_sent net (NewCCClient url) m ps, rfl⟩

/-- C6: marshalling the request envelope to JSON and unmarshalling it back
restores the whole envelope — in particular the method name and the
positional parameters, in order. -/
theorem request_encode_decode_roundtrip (r : RpcRequest) :
    decodeRequest (encodeRequest r) = some r := by
  cases r
  rfl

/-- A server answering every request with
`{"error":{"code":-32000,"message":"invalid passphrase"}}`. -/
def invalidPassphraseNet : Net := constNet (.json (.obj
  [("error", .obj [("code", .num (-32000)), ("message", .str "invalid passphrase")])]))

/-- C1: against a response whose error field is
`{code:-32000, message:"invalid passphrase"}`, `call` does return the remote
error carrying exactly that code and message — but `UnlockAccount` never
hands it to its caller: the raw result is the nil `json.RawMessage`, its
unmarshal fails with "unexpected end of JSON input", and `fatalIfErr` aborts
the process.  This contradicts the claim that the wrapper returns a zero
value together with the RemoteError rather than aborting. -/
theorem unlockAccount_error_envelope_aborts :
    ((NewCCClient "http://localhost").call invalidPassphraseNet "accounts_unlockAccount"
        [.str "0xABC", .str "wrong"]).err
      = some (.remote ⟨-32000, "invalid passphrase"⟩) ∧
    ((NewCCClient "http://localhost").UnlockAccount invalidPassphraseNet "0xABC" "wrong").2.2
      = .fatal (stringTypeMsg ++ ". ERROR: " ++ "unexpected end of JSON input") :=
  ⟨rfl, rfl⟩

/-- A server answering every request with a well-formed success envelope
whose result is the string `"c1"`. -/
def okStringNet : Net := constNet (.json (.obj
  [("id", .num 1), ("jsonrpc", .str "2.0"), ("result", .str "c1"), ("error", .null)]))

/-- C3 counterexample: `ExecuteImage` takes no token, does not rebind the
client's transport, and on a freshly constructed client its outgoing request
carries no header at all — in particular no `Authorization: Bearer` header —
refuting the claim that every container image lifecycle wrapper
authenticates its call. -/
theorem executeImage_sends_no_auth_header :
    ((NewCCClient "http://node").ExecuteImage okStringNet "n1" "img1").1.client
        = Transport.default ∧
    ((NewCCClient "http://node").ExecuteImage okStringNet "n1" "img1").2.1.headers = [] :=
  ⟨rfl, rfl⟩

/-- C3 amended: of the container image lifecycle wrappers, `LoadImageToNode`,
`ListNodeImages` and `ListNodeContainers` rebind the client transport so
their outgoing request carries `Authorization: Bearer <token>` derived from
the caller-supplied token; `ExecuteImage` and `InspectContainer` take no
token, leave the client unchanged and issue their request over whatever
transport the client currently holds. -/
theorem image_wrappers_auth_transport (net : Net) (rpc : CCClient)
    (nid ih img cid tok : String) :
    ((rpc.LoadImageToNode net nid ih tok).1.client = .bearer tok ∧
     (rpc.LoadImageToNode net nid ih tok).2.1.headers
        = [("Authorization", "Bearer " ++ tok)]) ∧
    ((rpc.ListNodeImages net nid tok).1.client = .bearer tok ∧
     (rpc.ListNodeImages net nid tok).2.1.headers
        = [("Authorization", "Bearer " ++ tok)]) ∧
    ((rpc.ListNodeContainers net nid tok).1.client = .bearer tok ∧
     (rpc.ListNodeContainers net nid tok).2.1.headers
        = [("Authorization", "Bearer " ++ tok)]) ∧
    ((rpc.ExecuteImage net nid img).1 = rpc ∧
     (rpc.ExecuteImage net nid img).2.1.headers = rpc.client.authHeaders) ∧
    ((rpc.InspectContainer net nid cid).1 = rpc ∧
     (rpc.InspectContainer net nid cid).2.1.headers = rpc.client.authHeaders) := by
  refine ⟨⟨rfl, ?_⟩, ⟨rfl, ?_⟩, ⟨rfl, ?_⟩, ⟨rfl, ?_⟩, ⟨rfl, ?_⟩⟩ <;>
    simp [CCClient.LoadImageToNode, CCClient.ListNodeImages, CCClient.ListNodeContainers,
      CCClient.ExecuteImage, CCClient.InspectContainer, CCClient.call_sent,
      CCClient.httpRequest, oauthClient, Transport.authHeaders]

/-- C9: once an authenticated wrapper (`LockAccount`, `LoadImageToNode`,
`ListNodeImages`, `ListNodeContainers`) has run, the token-injecting
transport stays bound to the client: subsequent wrappers that take no token,
such as `CreateAccount` and `DeleteAccount`, leave the client unchanged and
issue their requests with the previously supplied bearer token attached; the
client is never restored to the default transport. -/
theorem bearer_transport_persists_across_calls (net : Net) (rpc : CCClient)
    (a t p q1 q2 nid ih : String) :
    (rpc.LockAccount net a t).1.client = .bearer t ∧
    (rpc.LoadImageToNode net nid ih t).1.client = .bearer t ∧
    (rpc.ListNodeImages net nid t).1.client = .bearer t ∧
    (rpc.ListNodeContainers net nid t).1.client = .bearer t ∧
    ((rpc.LockAccount net a t).1.CreateAccount net p).1 = (rpc.LockAccount net a t).1 ∧
    ((rpc.LockAccount net a t).1.CreateAccount net p).2.1.headers
        = [("Authorization", "Bearer " ++ t)] ∧
    ((rpc.LockAccount net a t).1.DeleteAccount net q1 q2).1 = (rpc.LockAccount net a t).1 ∧
    ((rpc.LockAccount net a t).1.DeleteAccount net q1 q2).2.1.headers
        = [("Authorization", "Bearer " ++ t)] := by
  refine ⟨rfl, rfl, rfl, rfl, rfl, ?_, rfl, ?_⟩ <;>
    simp [CCClient.CreateAccount, CCClient.DeleteAccount, CCClient.LockAccount,
      CCClient.call_sent, CCClient.httpRequest, oauthClient, Transport.authHeaders]

/-- C2: every wrapper that decodes a result — expected `string` or
`[]string` — takes the `log.Fatalf` path exactly when the raw result payload
fails to unmarshal into the expected type; when the payload unmarshals, the
fatal path is not taken and no decoding error reaches the caller. -/
theorem decoding_wrappers_fatal_iff_unmarshal_fails (net : Net) (rpc : CCClient)
    (a b nid cid ih img tok tn : String) (n : Int) :
    (rpc.CreateAccount net a).2.2.isFatal
      = (unmarshalString (rpc.call net "accounts_createAccount" [.str a]).result).isFailure ∧
    (rpc.UnlockAccount net a b).2.2.isFatal
      = (unmarshalString
          (rpc.call net "accounts_unlockAccount" [.str a, .str b]).result).isFailure ∧
    (rpc.ListAccounts net).2.2.isFatal
      = (unmarshalStringList (rpc.call net "accounts_listAccounts" []).result).isFailure ∧
    (rpc.GetBootnodes net).2.2.isFatal
      = (unmarshalStringList (rpc.call net "bootnodes_getBootnodes" []).result).isFailure ∧
    (rpc.DiscoverNodes net n).2.2.isFatal
      = (unmarshalString (rpc.call net "discovery_discover" [.num n]).result).isFailure ∧
    (rpc.LoadImageToNode net nid ih tok).2.2.isFatal
      = (unmarshalString (CCClient.call net { rpc with client := oauthClient tok }
          "imagemanager_pushImage" [.str nid, .str ih]).result).isFailure ∧
    (rpc.ExecuteImage net nid img).2.2.isFatal
      = (unmarshalString
          (rpc.call net "imagemanager_runImage" [.str nid, .str img]).result).isFailure ∧
    (rpc.InspectContainer net nid cid).2.2.isFatal
      = (unmarshalString
          (rpc.call net "imagemanager_inspectContainer" [.str nid, .str cid]).result).isFailure ∧
    (rpc.ListNodeImages net nid tok).2.2.isFatal
      = (unmarshalString (CCClient.call net { rpc with client := oauthClient tok }
          "imagemanager_listImages" [.str nid]).result).isFailure ∧
    (rpc.ListNodeContainers net nid tok).2.2.isFatal
      = (unmarshalString (CCClient.call net { rpc with client := oauthClient tok }
          "imagemanager_listContainers" [.str nid]).result).isFailure ∧
    (rpc.LvlDBStats net).2.2.isFatal
      = (unmarshalString (rpc.call net "lvldb_getDBStats" []).result).isFailure ∧
    (rpc.LvlDBSelectImage net img).2.2.isFatal
      = (unmarshalString (rpc.call net "lvldb_selectImage" [.str img]).result).isFailure ∧
    (rpc.LvlDBSelectImageAccount net ih).2.2.isFatal
      = (unmarshalString (rpc.call net "lvldb_selectImageAccount" [.str ih]).result).isFailure ∧
    (rpc.LvlDBSelectType net tn).2.2.isFatal
      = (unmarshalString (rpc.call net "lvldb_selectType" [.str tn]).result).isFailure ∧
    (rpc.LvlDBSelectAll net).2.2.isFatal
      = (unmarshalString (rpc.call net "lvldb_selectAll" []).result).isFailure :=
  ⟨fatalIfErr_isFatal _ _ _, fatalIfErr_isFatal _ _ _, fatalIfErr_isFatal _ _ _,
   fatalIfErr_isFatal _ _ _, fatalIfErr_isFatal _ _ _, fatalIfErr_isFatal _ _ _,
   fatalIfErr_isFatal _ _ _, fatalIfErr_isFatal _ _ _, fatalIfErr_isFatal _ _ _,
   fatalIfErr_isFatal _ _ _, fatalIfErr_isFatal _ _ _, fatalIfErr_isFatal _ _ _,
   fatalIfErr_isFatal _ _ _, fatalIfErr_isFatal _ _ _, fatalIfErr_isFatal _ _ _⟩

/-- C4: against a server answering with a well-formed envelope whose error
field is empty and whose result has the expected shape, every typed wrapper
returns the decoded value and a nil error: each `string`-typed wrapper
returns the result string, each `[]string`-typed wrapper returns the result
strings in order, and each wrapper that decodes nothing returns a nil
error. -/
theorem wrappers_decode_success_response (rpc : CCClient) (w : Wire) (resp : RpcResponse)
    (a b nid cid ih img tok tn svc : String) (n : Int) (nodes : List String)
    (hdec : decodeResponse w = some resp) (herr : resp.error = none) :
    (∀ s, resp.result = some (.str s) →
      (rpc.CreateAccount (constNet w) a).2.2 = .ok s none ∧
      (rpc.UnlockAccount (constNet w) a b).2.2 = .ok s none ∧
      (rpc.DiscoverNodes (constNet w) n).2.2 = .ok s none ∧
      (rpc.LoadImageToNode (constNet w) nid ih tok).2.2 = .ok s none ∧
      (rpc.ExecuteImage (constNet w) nid img).2.2 = .ok s none ∧
      (rpc.InspectContainer (constNet w) nid cid).2.2 = .ok s none ∧
      (rpc.ListNodeImages (constNet w) nid tok).2.2 = .ok s none ∧
      (rpc.ListNodeContainers (constNet w) nid tok).2.2 = .ok s none ∧
      (rpc.LvlDBStats (constNet w)).2.2 = .ok s none ∧
      (rpc.LvlDBSelectImage (constNet w) img).2.2 = .ok s none ∧
      (rpc.LvlDBSelectImageAccount (constNet w) ih).2.2 = .ok s none ∧
      (rpc.LvlDBSelectType (constNet w) tn).2.2 = .ok s none ∧
      (rpc.LvlDBSelectAll (constNet w)).2.2 = .ok s none) ∧
    (∀ xs, resp.result = some (.arr (xs.map .str)) →
      (rpc.ListAccounts (constNet w)).2.2 = .ok xs none ∧
      (rpc.GetBootnodes (constNet w)).2.2 = .ok xs none) ∧
    ((rpc.LockAccount (constNet w) a tok).2.2 = none ∧
     (rpc.DeleteAccount (constNet w) a b).2.2 = none ∧
     (rpc.SetBootnodes (constNet w) nodes).2.2 = none ∧
     (rpc.RunSwarmService (constNet w) svc nodes).2.2 = none ∧
     (rpc.StopSwarmService (constNet w) nodes).2.2 = none) := by
  have hstr : ∀ xs : List String, stringElems (xs.map .str) = .ok xs := by
    intro xs
    induction xs with
    | nil => rfl
    | cons x tl htl => simp [stringElems, htl, Except.map]
  have hcall : ∀ (c : CCClient) (m : String) (ps : List Json),
      c.call (constNet w) m ps = ⟨c.httpRequest m ps, resp.result, none⟩ :=
    fun c m ps => CCClient.call_const_ok c w resp m ps hdec herr
  refine ⟨fun s hs => ?_, fun xs hs => ?_, ?_⟩
  · simp [CCClient.CreateAccount, CCClient.UnlockAccount, CCClient.DiscoverNodes,
      CCClient.LoadImageToNode, CCClient.ExecuteImage, CCClient.InspectContainer,
      CCClient.ListNodeImages, CCClient.ListNodeContainers, CCClient.LvlDBStats,
      CCClient.LvlDBSelectImage, CCClient.LvlDBSelectImageAccount, CCClient.LvlDBSelectType,
      CCClient.LvlDBSelectAll, hcall, hs, unmarshalString, fatalIfErr]
  · simp [CCClient.ListAccounts, CCClient.GetBootnodes, hcall, hs, hstr,
      unmarshalStringList, fatalIfErr]
  · simp [CCClient.LockAccount, CCClient.DeleteAccount, CCClient.SetBootnodes,
      CCClient.RunSwarmService, CCClient.StopSwarmService, hcall]

/-- The success body of the spec scenario:
`{"id":1,"jsonrpc":"2.0","result":"0xABC...","error":null}`. -/
def createAccountScenarioWire : Wire := .json (.obj
  [("id", .num 1), ("jsonrpc", .str "2.0"), ("result", .str "0xABC..."), ("error", .null)])

/-- Witness for C4, at the spec's scenario: `CreateAccount` with passphrase
`"pw123"` against `{"id":1,"jsonrpc":"2.0","result":"0xABC...","error":null}`
returns the pair `("0xABC...", nil)`. -/
theorem wrappers_decode_success_response_witness :
    ((NewCCClient "http://host").CreateAccount (constNet createAccountScenarioWire)
        "pw123").2.2 = .ok "0xABC..." none :=
  ((wrappers_decode_success_response (NewCCClient "http://host") createAccountScenarioWire
      ⟨1, "2.0", some (.str "0xABC..."), none⟩ "pw123" "b" "n1" "c1" "h1" "i1" "t1" "ty" "sv"
      0 [] rfl rfl).1 "0xABC..." rfl).1

/-- The `log.Fatalf` line produced when a wrapper unmarshals the nil raw
result into a `string`. -/
def nilStringAbortMsg : String := stringTypeMsg ++ ". ERROR: " ++ "unexpected end of JSON input"

/-- The `log.Fatalf` line produced when a wrapper unmarshals the nil raw
result into a `[]string`. -/
def nilSliceAbortMsg : String := sliceTypeMsg ++ ". ERROR: " ++ "unexpected end of JSON input"

/-- C7: against a response body that is not well-formed JSON for the
response envelope, `call` returns the deserialization error to its caller;
no wrapper invocation then crashes through any path other than the
deliberate `fatalIfErr` shape-mismatch abort: the wrappers that decode a
result reach exactly that abort (the nil raw result fails to unmarshal), and
the wrappers that decode nothing return the deserialization error to the
caller. -/
theorem malformed_response_yields_deserialization_error (rpc : CCClient)
    (m a b nid cid ih img tok tn svc : String) (n : Int) (ps : List Json)
    (nodes : List String) (w : Wire) (hdec : decodeResponse w = none) :
    rpc.call (constNet w) m ps = ⟨rpc.httpRequest m ps, none, some .deserialization⟩ ∧
    ((rpc.CreateAccount (constNet w) a).2.2 = .fatal nilStringAbortMsg ∧
     (rpc.UnlockAccount (constNet w) a b).2.2 = .fatal nilStringAbortMsg ∧
     (rpc.DiscoverNodes (constNet w) n).2.2 = .fatal nilStringAbortMsg ∧
     (rpc.LoadImageToNode (constNet w) nid ih tok).2.2 = .fatal nilStringAbortMsg ∧
     (rpc.ExecuteImage (constNet w) nid img).2.2 = .fatal nilStringAbortMsg ∧
     (rpc.InspectContainer (constNet w) nid cid).2.2 = .fatal nilStringAbortMsg ∧
     (rpc.ListNodeImages (constNet w) nid tok).2.2 = .fatal nilStringAbortMsg ∧
     (rpc.ListNodeContainers (constNet w) nid tok).2.2 = .fatal nilStringAbortMsg ∧
     (rpc.LvlDBStats (constNet w)).2.2 = .fatal nilStringAbortMsg ∧
     (rpc.LvlDBSelectImage (constNet w) img).2.2 = .fatal nilStringAbortMsg ∧
     (rpc.LvlDBSelectImageAccount (constNet w) ih).2.2 = .fatal nilStringAbortMsg ∧
     (rpc.LvlDBSelectType (constNet w) tn).2.2 = .fatal nilStringAbortMsg ∧
     (rpc.LvlDBSelectAll (constNet w)).2.2 = .fatal nilStringAbortMsg ∧
     (rpc.ListAccounts (constNet w)).2.2 = .fatal nilSliceAbortMsg ∧
     (rpc.GetBootnodes (constNet w)).2.2 = .fatal nilSliceAbortMsg) ∧
    ((rpc.LockAccount (constNet w) a tok).2.2 = some .deserialization ∧
     (rpc.DeleteAccount (constNet w) a b).2.2 = some .deserialization ∧
     (rpc.SetBootnodes (constNet w) nodes).2.2 = some .deserialization ∧
     (rpc.RunSwarmService (constNet w) svc nodes).2.2 = some .deserialization ∧
     (rpc.StopSwarmService (constNet w) nodes).2.2 = some .deserialization) := by
  have hcall : ∀ (c : CCClient) (m : String) (ps : List Json),
      c.call (constNet w) m ps = ⟨c.httpRequest m ps, none, some .deserialization⟩ :=
    fun c m ps => CCClient.call_const_bad c w m ps hdec
  refine ⟨hcall rpc m ps, ?_, ?_⟩
  · simp [CCClient.CreateAccount, CCClient.UnlockAccount, CCClient.DiscoverNodes,
      CCClient.LoadImageToNode, CCClient.ExecuteImage, CCClient.InspectContainer,
      CCClient.ListNodeImages, CCClient.ListNodeContainers, CCClient.LvlDBStats,
      CCClient.LvlDBSelectImage, CCClient.LvlDBSelectImageAccount, CCClient.LvlDBSelectType,
      CCClient.LvlDBSelectAll, CCClient.ListAccounts, CCClient.GetBootnodes, hcall,
      unmarshalString, unmarshalStringList, fatalIfErr, nilStringAbortMsg, nilSliceAbortMsg]
  · simp [CCClient.LockAccount, CCClient.DeleteAccount, CCClient.SetBootnodes,
      CCClient.RunSwarmService, CCClient.StopSwarmService, hcall]

/-- Witness for C7: against the malformed body `"oops"`, `call` for
`accounts_listAccounts` returns `(nil, DeserializationError)`. -/
theorem malformed_response_yields_deserialization_error_witness :
    (NewCCClient "http://host").call (constNet (.malformed "oops"))
        "accounts_listAccounts" []
      = ⟨(NewCCClient "http://host").httpRequest "accounts_listAccounts" [], none,
         some .deserialization⟩ :=
  (malformed_response_yields_deserialization_error (NewCCClient "http://host")
    "accounts_listAccounts" "a" "b" "n1" "c1" "h1" "i1" "t1" "ty" "sv" 0 [] []
    (.malformed "oops") rfl).1

/-- C8: when the path does not name a readable file, `UploadFile` returns
the file error and issues no HTTP POST: the open-failure exit precedes any
network call. -/
theorem uploadFile_missing_file_errors_without_post (net : UploadNet) (fs : FileSys)
    (c : UploadClient) (filename token : String) (h : fs filename = none) :
    (c.UploadFile net fs filename token).2.2 = .error (.fileError filename) ∧
    (c.UploadFile net fs filename token).2.1 = [] := by
  simp [UploadClient.UploadFile, h]

/-- Witness for C8: uploading `/tmp/missing.bin` over an empty filesystem
returns the file error and performs no POST. -/
theorem uploadFile_missing_file_errors_without_post_witness :
    ((NewUploadClient "http://up").UploadFile (fun _ => some "resp") (fun _ => none)
        "/tmp/missing.bin" "tok123").2.2 = .error (.fileError "/tmp/missing.bin") ∧
    ((NewUploadClient "http://up").UploadFile (fun _ => some "resp") (fun _ => none)
        "/tmp/missing.bin" "tok123").2.1 = [] :=
  uploadFile_missing_file_errors_without_post (fun _ => some "resp") (fun _ => none)
    (NewUploadClient "http://up") "/tmp/missing.bin" "tok123" rfl

/-- C10: `UploadFile` rebinds the client's transport to the bearer-token
transport before attempting to open the file, so even when it returns a
file-open error the returned client already holds the new transport — the
operation is not atomic on error. -/
theorem uploadFile_rebinds_transport_despite_error (net : UploadNet) (fs : FileSys)
    (c : UploadClient) (filename token : String) (h : fs filename = none) :
    (c.UploadFile net fs filename token).1 = { c with client := .bearer token } ∧
    (c.UploadFile net fs filename token).2.2 = .error (.fileError filename) := by
  simp [UploadClient.UploadFile, oauthClient, h]

/-- Witness for C10: a failing upload of `/no/such/file` still leaves the
client on the bearer transport for `"tok456"`. -/
theorem uploadFile_rebinds_transport_despite_error_witness :
    ((NewUploadClient "http://up2").UploadFile (fun _ => some "ok") (fun _ => none)
        "/no/such/file" "tok456").1
      = { NewUploadClient "http://up2" with client := .bearer "tok456" } ∧
    ((NewUploadClient "http://up2").UploadFile (fun _ => some "ok") (fun _ => none)
        "/no/such/file" "tok456").2.2 = .error (.fileError "/no/such/file") :=
  uploadFile_rebinds_transport_despite_error (fun _ => some "ok") (fun _ => none)
    (NewUploadClient "http://up2") "/no/such/file" "tok456" rfl
